import Mathlib

/-
Verification of the flowerid identifier library.

The repository provides a C API declaration (bindings/flowerid_c/include/flowerid.h),
a C++ wrapper over it (bindings/flowerid_cpp/flowerid.cpp) and that wrapper's tests.
The implementation behind the C API (the codec and generator core) is not part of
the sources here, so those operations are modelled from the specification; the C++
layer (comparison operators, builder defaults and staging, from_int / to_int,
Error::what) is embedded directly from bindings/flowerid_cpp/flowerid.cpp.
-/

set_option maxRecDepth 8000

namespace Flowerid

/-- Result code FID_RESULT_OK from bindings/flowerid_c/include/flowerid.h. -/
def FID_RESULT_OK : Int := 0

/-- Result code FID_RESULT_INVALIDARGUMENT. -/
def FID_RESULT_INVALIDARGUMENT : Int := -1

/-- Result code FID_RESULT_TIMESTAMPOVERFLOW. -/
def FID_RESULT_TIMESTAMPOVERFLOW : Int := -2

/-- Result code FID_RESULT_SEQUENCEOVERFLOW. -/
def FID_RESULT_SEQUENCEOVERFLOW : Int := -3

/-- Result code FID_RESULT_GENERATOROVERFLOW. -/
def FID_RESULT_GENERATOROVERFLOW : Int := -4

/-- Result code FID_RESULT_SYSTIMEISINPAST. -/
def FID_RESULT_SYSTIMEISINPAST : Int := -5

/-- Result code FID_RESULT_WRONGSLICESIZE. -/
def FID_RESULT_WRONGSLICESIZE : Int := -6

/-- Result code FID_RESULT_BASE64DECODEERROR. -/
def FID_RESULT_BASE64DECODEERROR : Int := -7

/-- Result code FID_RESULT_BUFFERWRONGSIZE. -/
def FID_RESULT_BUFFERWRONGSIZE : Int := -8

/-- Modelled from the spec: flowerid_new, whose implementation behind the C API is
not among the sources. It rejects timestamp ≥ 2^43 with TimestampOverflow,
sequence ≥ 2^11 with SequenceOverflow, generator ≥ 2^10 with GeneratorOverflow
(in the order the spec lists them), and otherwise packs the identifier as
(timestamp<<21) | (sequence<<10) | generator. -/
def flowerid_new (timestamp sequence generator : Nat) : Except Int Nat :=
  if 2 ^ 43 ≤ timestamp then .error FID_RESULT_TIMESTAMPOVERFLOW
  else if 2 ^ 11 ≤ sequence then .error FID_RESULT_SEQUENCEOVERFLOW
  else if 2 ^ 10 ≤ generator then .error FID_RESULT_GENERATOROVERFLOW
  else .ok (timestamp <<< 21 ||| sequence <<< 10 ||| generator)

/-- Modelled from the spec: flowerid_get_timestamp is id >> 21. -/
def flowerid_get_timestamp (fid : Nat) : Nat := fid >>> 21

/-- Modelled from the spec: flowerid_get_sequence is (id >> 10) & 0x7FF. -/
def flowerid_get_sequence (fid : Nat) : Nat := (fid >>> 10) &&& 0x7FF

/-- Modelled from the spec: flowerid_get_generator is id & 0x3FF. -/
def flowerid_get_generator (fid : Nat) : Nat := fid &&& 0x3FF

/-- Modelled from the spec: flowerid_to_bytes writes the 64-bit value as 8 bytes,
big-endian (most significant byte first). -/
def flowerid_to_bytes (fid : Nat) : List Nat :=
  [fid >>> 56 &&& 255, fid >>> 48 &&& 255, fid >>> 40 &&& 255, fid >>> 32 &&& 255,
    fid >>> 24 &&& 255, fid >>> 16 &&& 255, fid >>> 8 &&& 255, fid &&& 255]

/-- Modelled from the spec: flowerid_from_bytes recombines 8 big-endian bytes;
any input length other than 8 fails with WrongSliceSize. -/
def flowerid_from_bytes (buffer : List Nat) : Except Int Nat :=
  if buffer.length = 8 then
    .ok (buffer.foldl (fun acc b => acc * 256 + b) 0)
  else .error FID_RESULT_WRONGSLICESIZE

/-- URL-safe Base64 alphabet used by the text codec. -/
def b64_alphabet : List Char :=
  "ABCDEFGHIJKLMNOPQRSTUVWXYZabcdefghijklmnopqrstuvwxyz0123456789-_".data

/-- Character of one six-bit group. -/
def b64_char (d : Nat) : Char := b64_alphabet.getD d 'A'

/-- Index of a character in the URL-safe Base64 alphabet, scanning from
position i. -/
def b64_index_from (cs : List Char) (c : Char) (i : Nat) : Option Nat :=
  match cs with
  | [] => none
  | a :: rest => if a = c then some i else b64_index_from rest c (i + 1)

/-- Index of a character in the URL-safe Base64 alphabet; none when the
character is outside the alphabet. -/
def b64_index (c : Char) : Option Nat := b64_index_from b64_alphabet c 0

/-- Modelled from the spec: flowerid_to_string encodes the 8 big-endian bytes as
11 unpadded URL-safe Base64 characters: the 64 bits followed by 2 zero padding
bits, split most-significant-first into 11 six-bit groups. -/
def flowerid_to_string (fid : Nat) : String :=
  String.mk [
    b64_char ((fid <<< 2) >>> 60 &&& 63),
    b64_char ((fid <<< 2) >>> 54 &&& 63),
    b64_char ((fid <<< 2) >>> 48 &&& 63),
    b64_char ((fid <<< 2) >>> 42 &&& 63),
    b64_char ((fid <<< 2) >>> 36 &&& 63),
    b64_char ((fid <<< 2) >>> 30 &&& 63),
    b64_char ((fid <<< 2) >>> 24 &&& 63),
    b64_char ((fid <<< 2) >>> 18 &&& 63),
    b64_char ((fid <<< 2) >>> 12 &&& 63),
    b64_char ((fid <<< 2) >>> 6 &&& 63),
    b64_char ((fid <<< 2) &&& 63)]

/-- Fold the six-bit groups of a character list back into a number; none when a
character is outside the alphabet. -/
def b64_decode_list (cs : List Char) : Option Nat :=
  cs.foldl (fun acc c =>
    match acc, b64_index c with
    | some a, some d => some (a * 64 + d)
    | _, _ => none) (some 0)

/-- Modelled from the spec: flowerid_from_string requires exactly 11 characters
of the URL-safe Base64 alphabet (otherwise Base64DecodeError), decodes them to a
66-bit value and discards the trailing 2 padding bits. -/
def flowerid_from_string (s : String) : Except Int Nat :=
  if s.data.length = 11 then
    match b64_decode_list s.data with
    | some v => .ok (v >>> 2)
    | none => .error FID_RESULT_BASE64DECODEERROR
  else .error FID_RESULT_BASE64DECODEERROR

instance instDecEqExcept {ε α} [DecidableEq ε] [DecidableEq α] :
    DecidableEq (Except ε α) := fun a b =>
  match a, b with
  | .ok x, .ok y => if h : x = y then .isTrue (by rw [h]) else .isFalse (by simp [h])
  | .error x, .error y => if h : x = y then .isTrue (by rw [h]) else .isFalse (by simp [h])
  | .ok _, .error _ => .isFalse (by simp)
  | .error _, .ok _ => .isFalse (by simp)

/-- The C++ fid::FID value type: a wrapped 64-bit identifier
(bindings/flowerid_cpp/include/flowerid.h). -/
structure FID where
  _fid : Nat
deriving DecidableEq

/-- FID::FID(timestamp, sequence, generator): calls flowerid_new and throws the
error code on failure (bindings/flowerid_cpp/flowerid.cpp lines 58-63). -/
def FID.create (timestamp sequence generator : Nat) : Except Int FID :=
  match flowerid_new timestamp sequence generator with
  | .ok v => .ok ⟨v⟩
  | .error e => .error e

/-- FID::timestamp (flowerid.cpp lines 65-68). -/
def FID.timestamp (f : FID) : Nat := flowerid_get_timestamp f._fid

/-- FID::sequence (flowerid.cpp lines 70-73). -/
def FID.sequence (f : FID) : Nat := flowerid_get_sequence f._fid

/-- FID::generator (flowerid.cpp lines 75-78). -/
def FID.generator (f : FID) : Nat := flowerid_get_generator f._fid

/-- FID::to_string (flowerid.cpp lines 80-87): the 11-character text form. -/
def FID.to_string (f : FID) : String := flowerid_to_string f._fid

/-- FID::to_bytes (flowerid.cpp lines 89-96): the 8-byte big-endian form. -/
def FID.to_bytes (f : FID) : List Nat := flowerid_to_bytes f._fid

/-- FID::to_int (flowerid.cpp lines 98-101). -/
def FID.to_int (f : FID) : Nat := f._fid

/-- FID::from_string (flowerid.cpp lines 103-110). -/
def FID.from_string (s : String) : Except Int FID :=
  match flowerid_from_string s with
  | .ok v => .ok ⟨v⟩
  | .error e => .error e

/-- FID::from_bytes (flowerid.cpp lines 112-119). -/
def FID.from_bytes (buffer : List Nat) : Except Int FID :=
  match flowerid_from_bytes buffer with
  | .ok v => .ok ⟨v⟩
  | .error e => .error e

/-- FID::from_int (flowerid.cpp lines 121-124): wraps the value, no validation. -/
def FID.from_int (origin : Nat) : FID := ⟨origin⟩

/-- FID::operator> (flowerid.cpp line 126). -/
def FID.gt (a b : FID) : Bool := decide (b._fid < a._fid)

/-- FID::operator< (flowerid.cpp line 127). -/
def FID.lt (a b : FID) : Bool := decide (a._fid < b._fid)

/-- FID::operator>= (flowerid.cpp line 128). -/
def FID.ge (a b : FID) : Bool := decide (b._fid ≤ a._fid)

/-- FID::operator<= (flowerid.cpp line 129). -/
def FID.le (a b : FID) : Bool := decide (a._fid ≤ b._fid)

/-- FID::operator== (flowerid.cpp line 130). -/
def FID.beq (a b : FID) : Bool := decide (a._fid = b._fid)

/-- FID::operator!= (flowerid.cpp line 131). -/
def FID.bne (a b : FID) : Bool := decide (a._fid ≠ b._fid)

/-- The C++ fid::Error wrapper around an int32_t result code
(bindings/flowerid_cpp/flowerid.cpp lines 13-16). -/
structure Error where
  _code : Int
deriving DecidableEq

/-- Error::what (flowerid.cpp lines 18-46): the switch over the result codes,
then the sign test of the default branch. -/
def Error.what (e : Error) : String :=
  if e._code = FID_RESULT_OK then "no error"
  else if e._code = FID_RESULT_INVALIDARGUMENT then "invalid argument error"
  else if e._code = FID_RESULT_TIMESTAMPOVERFLOW then "timestamp overflow error"
  else if e._code = FID_RESULT_SEQUENCEOVERFLOW then "sequence overflow error"
  else if e._code = FID_RESULT_GENERATOROVERFLOW then "generator overflow error"
  else if e._code = FID_RESULT_SYSTIMEISINPAST then "system time is in past error"
  else if e._code = FID_RESULT_WRONGSLICESIZE then "wrong slice size error"
  else if e._code = FID_RESULT_BASE64DECODEERROR then "base64 decode error"
  else if e._code = FID_RESULT_BUFFERWRONGSIZE then "wrong buffer size error"
  else if 0 < e._code then "no error but failed"
  else "unknown error"

/-- Error::code (flowerid.cpp lines 48-51). -/
def Error.code (e : Error) : Int := e._code

/-- The C++ fid::FIDGeneratorBuilder staging record
(bindings/flowerid_cpp/include/flowerid.h lines 51-78). -/
structure FIDGeneratorBuilder where
  _generator : Nat
  _timestamp_offset : Int
  _timestamp_last : Nat
  _sequence : Nat
  _wait_sequence : Bool
  _timestamp_in_seconds : Bool
deriving DecidableEq

/-- FIDGeneratorBuilder::FIDGeneratorBuilder(generator)
(flowerid.cpp lines 133-141): the defaults. -/
def FIDGeneratorBuilder.new (generator : Nat) : FIDGeneratorBuilder :=
  { _generator := generator
    _timestamp_offset := -1483228800
    _timestamp_last := 0
    _sequence := 0
    _wait_sequence := true
    _timestamp_in_seconds := false }

/-- FIDGeneratorBuilder::timestamp_offset setter (flowerid.cpp lines 143-147). -/
def FIDGeneratorBuilder.timestamp_offset (b : FIDGeneratorBuilder) (v : Int) :
    FIDGeneratorBuilder := { b with _timestamp_offset := v }

/-- FIDGeneratorBuilder::timestamp_last setter (flowerid.cpp lines 149-153). -/
def FIDGeneratorBuilder.timestamp_last (b : FIDGeneratorBuilder) (v : Nat) :
    FIDGeneratorBuilder := { b with _timestamp_last := v }

/-- FIDGeneratorBuilder::sequence setter (flowerid.cpp lines 155-159). -/
def FIDGeneratorBuilder.sequence (b : FIDGeneratorBuilder) (v : Nat) :
    FIDGeneratorBuilder := { b with _sequence := v }

/-- FIDGeneratorBuilder::wait_sequence setter (flowerid.cpp lines 161-165). -/
def FIDGeneratorBuilder.wait_sequence (b : FIDGeneratorBuilder) :
    FIDGeneratorBuilder := { b with _wait_sequence := true }

/-- FIDGeneratorBuilder::not_wait_sequence setter (flowerid.cpp lines 167-171). -/
def FIDGeneratorBuilder.not_wait_sequence (b : FIDGeneratorBuilder) :
    FIDGeneratorBuilder := { b with _wait_sequence := false }

/-- FIDGeneratorBuilder::timestamp_in_seconds setter (flowerid.cpp lines 173-177). -/
def FIDGeneratorBuilder.timestamp_in_seconds (b : FIDGeneratorBuilder) :
    FIDGeneratorBuilder := { b with _timestamp_in_seconds := true }

/-- FIDGeneratorBuilder::timestamp_in_millisecond setter (flowerid.cpp lines 179-183). -/
def FIDGeneratorBuilder.timestamp_in_millisecond (b : FIDGeneratorBuilder) :
    FIDGeneratorBuilder := { b with _timestamp_in_seconds := false }

/-- FIDGeneratorBuilder::get_generator (flowerid.cpp lines 190-193). -/
def FIDGeneratorBuilder.get_generator (b : FIDGeneratorBuilder) : Nat := b._generator

/-- FIDGeneratorBuilder::get_timestamp_offset (flowerid.cpp lines 195-198). -/
def FIDGeneratorBuilder.get_timestamp_offset (b : FIDGeneratorBuilder) : Int :=
  b._timestamp_offset

/-- FIDGeneratorBuilder::get_timestamp_last (flowerid.cpp lines 200-203). -/
def FIDGeneratorBuilder.get_timestamp_last (b : FIDGeneratorBuilder) : Nat :=
  b._timestamp_last

/-- FIDGeneratorBuilder::get_sequence (flowerid.cpp lines 205-208). -/
def FIDGeneratorBuilder.get_sequence (b : FIDGeneratorBuilder) : Nat := b._sequence

/-- FIDGeneratorBuilder::get_wait_sequence (flowerid.cpp lines 210-213). -/
def FIDGeneratorBuilder.get_wait_sequence (b : FIDGeneratorBuilder) : Bool :=
  b._wait_sequence

/-- FIDGeneratorBuilder::get_timestamp_in_seconds (flowerid.cpp lines 215-218). -/
def FIDGeneratorBuilder.get_timestamp_in_seconds (b : FIDGeneratorBuilder) : Bool :=
  b._timestamp_in_seconds

/-- The generator state behind the C API: the configuration fields plus the
mutable (last_timestamp, sequence) pair the spec describes. -/
structure GenState where
  generator : Nat
  timestamp_offset : Int
  last_timestamp : Nat
  sequence : Nat
  wait_sequence : Bool
  timestamp_in_seconds : Bool
deriving DecidableEq

/-- Modelled from the spec: flowerid_generator_new_ex, whose implementation
behind the C API is not among the sources. Construction validates only
generator_id < 1024 (else GeneratorOverflow) and seeds the state with the
configured last_timestamp and sequence; no other field is validated. -/
def flowerid_generator_new_ex (generator : Nat) (timestamp_offset : Int)
    (timestamp_last : Nat) (sequence : Nat) (wait_sequence : Bool)
    (timestamp_in_seconds : Bool) : Except Int GenState :=
  if 1024 ≤ generator then .error FID_RESULT_GENERATOROVERFLOW
  else .ok
    { generator := generator
      timestamp_offset := timestamp_offset
      last_timestamp := timestamp_last
      sequence := sequence
      wait_sequence := wait_sequence
      timestamp_in_seconds := timestamp_in_seconds }

/-- FIDGeneratorBuilder::build / FIDGenerator::FIDGenerator
(flowerid.cpp lines 185-188 and 220-231): forwards every staged field to
flowerid_generator_new_ex and throws the error code on failure. -/
def FIDGeneratorBuilder.build (b : FIDGeneratorBuilder) : Except Int GenState :=
  flowerid_generator_new_ex b.get_generator b.get_timestamp_offset
    b.get_timestamp_last b.get_sequence b.get_wait_sequence
    b.get_timestamp_in_seconds

/-- Pack the current (last_timestamp, sequence, generator_id) through the codec,
step 5 of the spec's next() transition. Errors (such as TimestampOverflow once
the 43-bit field is exhausted) surface without the state change committing. -/
def GenState.emit (st : GenState) : Except Int (GenState × Nat) :=
  match flowerid_new st.last_timestamp st.sequence st.generator with
  | .ok fid => .ok (st, fid)
  | .error e => .error e

/-- Modelled from the spec: the wait-on-sequence-overflow loop of next() keeps
re-sampling the clock until a sample exceeds last_timestamp, then applies the
new-tick transition. The list holds this call's remaining clock samples (already
converted to the configured unit with the epoch offset applied); none means the
call is still blocked when the supplied samples run out. -/
def GenState.waitLoop (st : GenState) :
    List Nat → Option (Except Int (GenState × Nat))
  | [] => none
  | now :: rest =>
    if st.last_timestamp < now then
      some (GenState.emit { st with last_timestamp := now, sequence := 0 })
    else st.waitLoop rest

/-- Modelled from the spec: one flowerid_generator_next call, whose
implementation behind the C API is not among the sources. The head sample is
step 1's converted clock reading; on a new tick the state becomes (now, 0), on
the same tick the sequence increments unless it would pass 2047 (then
SequenceOverflow, or the waiting loop when configured), and a sample below
last_timestamp fails with SysTimeIsInPast. State changes commit only when the
call returns ok. -/
def GenState.next (st : GenState) :
    List Nat → Option (Except Int (GenState × Nat))
  | [] => none
  | now :: rest =>
    if st.last_timestamp < now then
      some (GenState.emit { st with last_timestamp := now, sequence := 0 })
    else if now = st.last_timestamp then
      if st.sequence + 1 ≤ 2047 then
        some (GenState.emit { st with sequence := st.sequence + 1 })
      else if st.wait_sequence then st.waitLoop rest
      else some (.error FID_RESULT_SEQUENCEOVERFLOW)
    else some (.error FID_RESULT_SYSTIMEISINPAST)

/-- The state after one next() call: it moves only when the call returns ok. -/
def GenState.step (st : GenState) (samples : List Nat) : GenState :=
  match st.next samples with
  | some (.ok (st2, _)) => st2
  | _ => st

/-- The state after k next() calls that each sample the same clock value c. -/
def GenState.runConst (st : GenState) (c : Nat) : Nat → GenState
  | 0 => st
  | k + 1 => (st.runConst c k).step [c]

/-- Masking with 2047 is reduction mod 2048. -/
theorem and_mask_2047 (x : Nat) : x &&& 2047 = x % 2048 := by
  have h := Nat.and_pow_two_sub_one_eq_mod x 11
  norm_num at h
  exact h

/-- Masking with 1023 is reduction mod 1024. -/
theorem and_mask_1023 (x : Nat) : x &&& 1023 = x % 1024 := by
  have h := Nat.and_pow_two_sub_one_eq_mod x 10
  norm_num at h
  exact h

/-- Masking with 255 is reduction mod 256. -/
theorem and_mask_255 (x : Nat) : x &&& 255 = x % 256 := by
  have h := Nat.and_pow_two_sub_one_eq_mod x 8
  norm_num at h
  exact h

/-- Masking with 63 is reduction mod 64. -/
theorem and_mask_63 (x : Nat) : x &&& 63 = x % 64 := by
  have h := Nat.and_pow_two_sub_one_eq_mod x 6
  norm_num at h
  exact h

/-- With in-range sequence and generator fields the packed bit-or is a plain
sum: the three fields occupy disjoint bit ranges. -/
theorem pack_eq_add (t s g : Nat) (hs : s < 2 ^ 11) (hg : g < 2 ^ 10) :
    t <<< 21 ||| s <<< 10 ||| g = t * 2 ^ 21 + s * 2 ^ 10 + g := by
  have hb1 : s <<< 10 < 2 ^ 21 := by
    rw [Nat.shiftLeft_eq]
    have : s * 2 ^ 10 < 2 ^ 11 * 2 ^ 10 :=
      Nat.mul_lt_mul_of_lt_of_le hs (Nat.le_refl _) (by norm_num)
    omega
  have e1 : t <<< 21 ||| s <<< 10 = 2 ^ 10 * (2 ^ 11 * t + s) := by
    rw [Nat.shiftLeft_eq t 21, Nat.mul_comm t (2 ^ 21), ← Nat.mul_add_lt_is_or hb1 t]
    rw [Nat.shiftLeft_eq]
    ring
  rw [e1, ← Nat.mul_add_lt_is_or hg (2 ^ 11 * t + s)]
  ring

/-- Packing in-range fields succeeds with the arithmetic value of the layout. -/
theorem pack_ok (t s g : Nat) (ht : t < 2 ^ 43) (hs : s < 2 ^ 11) (hg : g < 2 ^ 10) :
    FID.create t s g = .ok ⟨t * 2 ^ 21 + s * 2 ^ 10 + g⟩ := by
  unfold FID.create flowerid_new
  rw [if_neg (Nat.not_le.mpr ht), if_neg (Nat.not_le.mpr hs), if_neg (Nat.not_le.mpr hg),
    pack_eq_add t s g hs hg]

/-- The three accessors recover the packed fields. -/
theorem fields_of_packed (t s g : Nat) (hs : s < 2 ^ 11) (hg : g < 2 ^ 10) :
    (FID.mk (t * 2 ^ 21 + s * 2 ^ 10 + g)).timestamp = t ∧
    (FID.mk (t * 2 ^ 21 + s * 2 ^ 10 + g)).sequence = s ∧
    (FID.mk (t * 2 ^ 21 + s * 2 ^ 10 + g)).generator = g := by
  unfold FID.timestamp FID.sequence FID.generator flowerid_get_timestamp
    flowerid_get_sequence flowerid_get_generator
  simp only [Nat.shiftRight_eq_div_pow, and_mask_2047, and_mask_1023]
  norm_num
  omega

/-- Decoding the big-endian byte form of a 64-bit value recovers the value. -/
theorem bytes_round_trip_aux (x : Nat) (hx : x < 2 ^ 64) :
    flowerid_from_bytes (flowerid_to_bytes x) = .ok x := by
  unfold flowerid_to_bytes flowerid_from_bytes
  rw [if_pos (by rfl)]
  simp only [List.foldl, Nat.shiftRight_eq_div_pow, and_mask_255, Except.ok.injEq]
  norm_num
  omega

/-- Looking up the alphabet character of a six-bit value finds its index back. -/
theorem b64_digit (d : Nat) (hd : d < 64) : b64_index (b64_char d) = some d := by
  revert d
  decide

/-- A masked six-bit group is below 64. -/
theorem and63_lt (x : Nat) : x &&& 63 < 64 := Nat.lt_succ_of_le Nat.and_le_right

/-- Specialisation of b64_digit to the masked groups of the encoder. -/
theorem b64_digit_and (e : Nat) : b64_index (b64_char (e &&& 63)) = some (e &&& 63) :=
  b64_digit _ (and63_lt e)

/-- Decoding the 11 characters of the encoder yields the Horner sum of the
six-bit groups. -/
theorem decode_of_encode (x : Nat) :
    b64_decode_list (flowerid_to_string x).data =
      some ((((((((((((x <<< 2) >>> 60 &&& 63) * 64 + ((x <<< 2) >>> 54 &&& 63)) * 64 +
        ((x <<< 2) >>> 48 &&& 63)) * 64 + ((x <<< 2) >>> 42 &&& 63)) * 64 +
        ((x <<< 2) >>> 36 &&& 63)) * 64 + ((x <<< 2) >>> 30 &&& 63)) * 64 +
        ((x <<< 2) >>> 24 &&& 63)) * 64 + ((x <<< 2) >>> 18 &&& 63)) * 64 +
        ((x <<< 2) >>> 12 &&& 63)) * 64 + ((x <<< 2) >>> 6 &&& 63)) * 64 +
        ((x <<< 2) &&& 63)) := by
  unfold flowerid_to_string b64_decode_list
  simp only [List.foldl, b64_digit_and]
  norm_num

/-- One Horner step of base-64 digit recomposition. -/
theorem digit_step (y k : Nat) : y / 2 ^ (k + 6) * 64 + y / 2 ^ k % 64 = y / 2 ^ k := by
  have h1 : y / 2 ^ (k + 6) = y / 2 ^ k / 64 := by
    rw [Nat.div_div_eq_div_mul, Nat.pow_add]
  rw [h1]
  exact Nat.div_add_mod' _ 64

/-- The encoder always produces 11 characters. -/
theorem len11 (x : Nat) : (flowerid_to_string x).data.length = 11 := by
  unfold flowerid_to_string
  rfl

/-- Decoding the text form of a 64-bit value recovers the value. -/
theorem string_round_trip_aux (x : Nat) (hx : x < 2 ^ 64) :
    flowerid_from_string (flowerid_to_string x) = .ok x := by
  unfold flowerid_from_string
  rw [if_pos (len11 x), decode_of_encode x]
  simp only [Except.ok.injEq, and_mask_63, Nat.shiftLeft_eq, Nat.shiftRight_eq_div_pow]
  have s54 := digit_step (x * 2 ^ 2) 54
  have s48 := digit_step (x * 2 ^ 2) 48
  have s42 := digit_step (x * 2 ^ 2) 42
  have s36 := digit_step (x * 2 ^ 2) 36
  have s30 := digit_step (x * 2 ^ 2) 30
  have s24 := digit_step (x * 2 ^ 2) 24
  have s18 := digit_step (x * 2 ^ 2) 18
  have s12 := digit_step (x * 2 ^ 2) 12
  have s6 := digit_step (x * 2 ^ 2) 6
  have s0 := digit_step (x * 2 ^ 2) 0
  norm_num at hx s54 s48 s42 s36 s30 s24 s18 s12 s6 s0 ⊢
  have htop : x * 4 / 1152921504606846976 % 64 = x * 4 / 1152921504606846976 := by
    omega
  rw [htop, s54, s48, s42, s36, s30, s24, s18, s12, s6, s0]
  omega

/-- C1: constructing an identifier from timestamp 3020801146913, sequence 37,
generator 160 yields the numeric value 6335079166850929824, whose byte encoding
is 57 EA B8 F0 04 20 94 A0 (big-endian) and whose text encoding is the
11-character string V-q48AQglKA; decoding that byte string or text string
recovers an identifier whose accessors return the original three fields. -/
theorem C1_golden_vector :
    FID.create 3020801146913 37 160 = .ok ⟨6335079166850929824⟩ ∧
    FID.to_bytes ⟨6335079166850929824⟩ = [0x57, 0xEA, 0xB8, 0xF0, 0x04, 0x20, 0x94, 0xA0] ∧
    FID.to_string ⟨6335079166850929824⟩ = "V-q48AQglKA" ∧
    FID.from_bytes [0x57, 0xEA, 0xB8, 0xF0, 0x04, 0x20, 0x94, 0xA0] = .ok ⟨6335079166850929824⟩ ∧
    FID.from_string "V-q48AQglKA" = .ok ⟨6335079166850929824⟩ ∧
    FID.timestamp ⟨6335079166850929824⟩ = 3020801146913 ∧
    FID.sequence ⟨6335079166850929824⟩ = 37 ∧
    FID.generator ⟨6335079166850929824⟩ = 160 := by
  decide

/-- C2: for every in-range (timestamp, sequence, generator) triple, unpacking
the packed identifier returns the triple; for every 64-bit identifier,
from_bytes of to_bytes is the identity and from_string of to_string is the
identity. -/
theorem C2_round_trip :
    (∀ t s g : Nat, t < 2 ^ 43 → s < 2 ^ 11 → g < 2 ^ 10 →
      ∃ f : FID, FID.create t s g = .ok f ∧
        f.timestamp = t ∧ f.sequence = s ∧ f.generator = g) ∧
    (∀ f : FID, f._fid < 2 ^ 64 → FID.from_bytes f.to_bytes = .ok f) ∧
    (∀ f : FID, f._fid < 2 ^ 64 → FID.from_string f.to_string = .ok f) := by
  refine ⟨?_, ?_, ?_⟩
  · intro t s g ht hs hg
    exact ⟨⟨t * 2 ^ 21 + s * 2 ^ 10 + g⟩, pack_ok t s g ht hs hg,
      fields_of_packed t s g hs hg⟩
  · intro f hf
    unfold FID.from_bytes FID.to_bytes
    rw [bytes_round_trip_aux f._fid hf]
  · intro f hf
    unfold FID.from_string FID.to_string
    rw [string_round_trip_aux f._fid hf]

/-- Witness for C2 at the golden vector input. -/
theorem C2_round_trip_witness :
    (∃ f : FID, FID.create 3020801146913 37 160 = .ok f ∧
      f.timestamp = 3020801146913 ∧ f.sequence = 37 ∧ f.generator = 160) ∧
    FID.from_bytes (FID.to_bytes ⟨6335079166850929824⟩) = .ok ⟨6335079166850929824⟩ ∧
    FID.from_string (FID.to_string ⟨6335079166850929824⟩) = .ok ⟨6335079166850929824⟩ :=
  ⟨C2_round_trip.1 3020801146913 37 160 (by norm_num) (by norm_num) (by norm_num),
   C2_round_trip.2.1 ⟨6335079166850929824⟩ (by norm_num),
   C2_round_trip.2.2 ⟨6335079166850929824⟩ (by norm_num)⟩

/-- C3: packing rejects an out-of-range timestamp with TimestampOverflow, then
an out-of-range sequence with SequenceOverflow, then an out-of-range generator
with GeneratorOverflow, the checks applied in the spec's order; an in-range
input succeeds with (timestamp<<21) | (sequence<<10) | generator. -/
theorem C3_pack_bounds :
    (∀ t s g : Nat, 2 ^ 43 ≤ t →
      FID.create t s g = .error FID_RESULT_TIMESTAMPOVERFLOW) ∧
    (∀ t s g : Nat, t < 2 ^ 43 → 2 ^ 11 ≤ s →
      FID.create t s g = .error FID_RESULT_SEQUENCEOVERFLOW) ∧
    (∀ t s g : Nat, t < 2 ^ 43 → s < 2 ^ 11 → 2 ^ 10 ≤ g →
      FID.create t s g = .error FID_RESULT_GENERATOROVERFLOW) ∧
    (∀ t s g : Nat, t < 2 ^ 43 → s < 2 ^ 11 → g < 2 ^ 10 →
      FID.create t s g = .ok ⟨t <<< 21 ||| s <<< 10 ||| g⟩) := by
  refine ⟨?_, ?_, ?_, ?_⟩ <;> intro t s g
  · intro ht
    unfold FID.create flowerid_new
    rw [if_pos ht]
  · intro ht hs
    unfold FID.create flowerid_new
    rw [if_neg (Nat.not_le.mpr ht), if_pos hs]
  · intro ht hs hg
    unfold FID.create flowerid_new
    rw [if_neg (Nat.not_le.mpr ht), if_neg (Nat.not_le.mpr hs), if_pos hg]
  · intro ht hs hg
    unfold FID.create flowerid_new
    rw [if_neg (Nat.not_le.mpr ht), if_neg (Nat.not_le.mpr hs), if_neg (Nat.not_le.mpr hg)]

/-- Witness for C3 at the boundary inputs named by the spec and the golden
vector. -/
theorem C3_pack_bounds_witness :
    FID.create (2 ^ 43) 0 0 = .error FID_RESULT_TIMESTAMPOVERFLOW ∧
    FID.create 0 (2 ^ 11) 0 = .error FID_RESULT_SEQUENCEOVERFLOW ∧
    FID.create 0 0 (2 ^ 10) = .error FID_RESULT_GENERATOROVERFLOW ∧
    FID.create 3020801146913 37 160 = .ok ⟨3020801146913 <<< 21 ||| 37 <<< 10 ||| 160⟩ :=
  ⟨C3_pack_bounds.1 _ 0 0 (Nat.le_refl _),
   C3_pack_bounds.2.1 0 _ 0 (by norm_num) (Nat.le_refl _),
   C3_pack_bounds.2.2.1 0 0 _ (by norm_num) (by norm_num) (Nat.le_refl _),
   C3_pack_bounds.2.2.2 3020801146913 37 160 (by norm_num) (by norm_num) (by norm_num)⟩

/-- Claim C6: the six comparison operators are the plain unsigned comparisons
of the packed 64-bit values, and two identifiers are equal exactly when their
timestamp, sequence and generator fields all agree. -/
theorem C6_comparisons :
    (∀ a b : FID, FID.lt a b = decide (a.to_int < b.to_int) ∧
      FID.le a b = decide (a.to_int ≤ b.to_int) ∧
      FID.gt a b = decide (b.to_int < a.to_int) ∧
      FID.ge a b = decide (b.to_int ≤ a.to_int) ∧
      FID.beq a b = decide (a.to_int = b.to_int) ∧
      FID.bne a b = decide (a.to_int ≠ b.to_int)) ∧
    (∀ a b : FID, FID.beq a b = true ↔
      (a.timestamp = b.timestamp ∧ a.sequence = b.sequence ∧ a.generator = b.generator)) := by
  constructor
  · intro a b
    exact ⟨rfl, rfl, rfl, rfl, rfl, rfl⟩
  · intro a b
    unfold FID.beq FID.timestamp FID.sequence FID.generator flowerid_get_timestamp
      flowerid_get_sequence flowerid_get_generator
    simp only [decide_eq_true_eq, Nat.shiftRight_eq_div_pow, and_mask_2047, and_mask_1023]
    norm_num
    constructor
    · intro h
      rw [h]
      exact ⟨rfl, rfl, rfl⟩
    · rintro ⟨h1, h2, h3⟩
      omega

/-- Witness for C6 at concrete identifiers. -/
theorem C6_comparisons_witness :
    FID.lt ⟨3⟩ ⟨7⟩ = decide ((⟨3⟩ : FID).to_int < (⟨7⟩ : FID).to_int) ∧
    (FID.beq ⟨6335079166850929824⟩ ⟨6335079166850929824⟩ = true ↔
      ((⟨6335079166850929824⟩ : FID).timestamp = (⟨6335079166850929824⟩ : FID).timestamp ∧
       (⟨6335079166850929824⟩ : FID).sequence = (⟨6335079166850929824⟩ : FID).sequence ∧
       (⟨6335079166850929824⟩ : FID).generator = (⟨6335079166850929824⟩ : FID).generator)) :=
  ⟨(C6_comparisons.1 ⟨3⟩ ⟨7⟩).1,
   C6_comparisons.2 ⟨6335079166850929824⟩ ⟨6335079166850929824⟩⟩

/-- Claim C8: a freshly constructed builder, before any setter runs, holds the
documented defaults: epoch offset -1483228800, initial last-timestamp 0,
initial sequence 0, wait-on-sequence-overflow true, milliseconds unit. -/
theorem C8_builder_defaults :
    ∀ g : Nat, (FIDGeneratorBuilder.new g).get_generator = g ∧
      (FIDGeneratorBuilder.new g).get_timestamp_offset = -1483228800 ∧
      (FIDGeneratorBuilder.new g).get_timestamp_last = 0 ∧
      (FIDGeneratorBuilder.new g).get_sequence = 0 ∧
      (FIDGeneratorBuilder.new g).get_wait_sequence = true ∧
      (FIDGeneratorBuilder.new g).get_timestamp_in_seconds = false :=
  fun _ => ⟨rfl, rfl, rfl, rfl, rfl, rfl⟩

/-- Claim C9: from_int then to_int is the identity on every 64-bit value;
from_int validates nothing, so every numeric value is constructible through the
numeric interface. -/
theorem C9_from_int_to_int :
    ∀ x : Nat, x < 2 ^ 64 → (FID.from_int x).to_int = x :=
  fun _ _ => rfl

/-- Witness for C9 at the golden-vector value. -/
theorem C9_from_int_to_int_witness :
    (FID.from_int 6335079166850929824).to_int = 6335079166850929824 :=
  C9_from_int_to_int 6335079166850929824 (by norm_num)

/-- Claim C7: building from a configuration fails with GeneratorOverflow
exactly when the configured generator id is 1024 or more; otherwise it succeeds
and the generator state is seeded with the configured last_timestamp and
sequence, no other configuration field being validated. -/
theorem C7_build :
    ∀ b : FIDGeneratorBuilder,
      ((∃ e, b.build = .error e) ↔ 1024 ≤ b._generator) ∧
      (1024 ≤ b._generator → b.build = .error FID_RESULT_GENERATOROVERFLOW) ∧
      (b._generator < 1024 → b.build = .ok
        { generator := b._generator
          timestamp_offset := b._timestamp_offset
          last_timestamp := b._timestamp_last
          sequence := b._sequence
          wait_sequence := b._wait_sequence
          timestamp_in_seconds := b._timestamp_in_seconds }) := by
  intro b
  unfold FIDGeneratorBuilder.build flowerid_generator_new_ex
    FIDGeneratorBuilder.get_generator FIDGeneratorBuilder.get_timestamp_offset
    FIDGeneratorBuilder.get_timestamp_last FIDGeneratorBuilder.get_sequence
    FIDGeneratorBuilder.get_wait_sequence FIDGeneratorBuilder.get_timestamp_in_seconds
  by_cases h : 1024 ≤ b._generator
  · rw [if_pos h]
    exact ⟨⟨fun _ => h, fun _ => ⟨FID_RESULT_GENERATOROVERFLOW, rfl⟩⟩,
      fun _ => rfl, fun h2 => absurd h (by omega)⟩
  · rw [if_neg h]
    refine ⟨⟨?_, fun hh => absurd hh h⟩, fun hh => absurd hh h, fun _ => rfl⟩
    rintro ⟨e, he⟩
    exact absurd he (by simp)

/-- Witness for C7 at generator ids 1024 (rejected) and 5 (accepted with the
default staging fields). -/
theorem C7_build_witness :
    (FIDGeneratorBuilder.new 1024).build = .error FID_RESULT_GENERATOROVERFLOW ∧
    (FIDGeneratorBuilder.new 5).build = .ok
      { generator := 5
        timestamp_offset := -1483228800
        last_timestamp := 0
        sequence := 0
        wait_sequence := true
        timestamp_in_seconds := false } :=
  ⟨(C7_build (FIDGeneratorBuilder.new 1024)).2.1 (by decide),
   (C7_build (FIDGeneratorBuilder.new 5)).2.2 (by decide)⟩

/-- Claim C10: Error::what is total over the int32 range: each of the nine
named result codes maps to its fixed descriptive string, any other positive
code to the string for a positive failure, any other negative code to the
unknown-error string; Error::code returns exactly the stored code. -/
theorem C10_error_what :
    ∀ c : Int, -(2 ^ 31) ≤ c → c < 2 ^ 31 →
      (Error.mk c).code = c ∧
      (c = 0 → (Error.mk c).what = "no error") ∧
      (c = -1 → (Error.mk c).what = "invalid argument error") ∧
      (c = -2 → (Error.mk c).what = "timestamp overflow error") ∧
      (c = -3 → (Error.mk c).what = "sequence overflow error") ∧
      (c = -4 → (Error.mk c).what = "generator overflow error") ∧
      (c = -5 → (Error.mk c).what = "system time is in past error") ∧
      (c = -6 → (Error.mk c).what = "wrong slice size error") ∧
      (c = -7 → (Error.mk c).what = "base64 decode error") ∧
      (c = -8 → (Error.mk c).what = "wrong buffer size error") ∧
      (0 < c → (Error.mk c).what = "no error but failed") ∧
      (c < -8 → (Error.mk c).what = "unknown error") := by
  intro c hlo hhi
  refine ⟨rfl, ?_, ?_, ?_, ?_, ?_, ?_, ?_, ?_, ?_, ?_, ?_⟩
  all_goals intro h
  case _ => subst h; rfl
  case _ => subst h; rfl
  case _ => subst h; rfl
  case _ => subst h; rfl
  case _ => subst h; rfl
  case _ => subst h; rfl
  case _ => subst h; rfl
  case _ => subst h; rfl
  case _ => subst h; rfl
  · unfold Error.what FID_RESULT_OK FID_RESULT_INVALIDARGUMENT
      FID_RESULT_TIMESTAMPOVERFLOW FID_RESULT_SEQUENCEOVERFLOW
      FID_RESULT_GENERATOROVERFLOW FID_RESULT_SYSTIMEISINPAST
      FID_RESULT_WRONGSLICESIZE FID_RESULT_BASE64DECODEERROR
      FID_RESULT_BUFFERWRONGSIZE
    dsimp only
    have q0 : ¬(c = 0) := by omega
    have q1 : ¬(c = -1) := by omega
    have q2 : ¬(c = -2) := by omega
    have q3 : ¬(c = -3) := by omega
    have q4 : ¬(c = -4) := by omega
    have q5 : ¬(c = -5) := by omega
    have q6 : ¬(c = -6) := by omega
    have q7 : ¬(c = -7) := by omega
    have q8 : ¬(c = -8) := by omega
    rw [if_neg q0, if_neg q1, if_neg q2, if_neg q3, if_neg q4, if_neg q5, if_neg q6,
      if_neg q7, if_neg q8, if_pos h]
  · unfold Error.what FID_RESULT_OK FID_RESULT_INVALIDARGUMENT
      FID_RESULT_TIMESTAMPOVERFLOW FID_RESULT_SEQUENCEOVERFLOW
      FID_RESULT_GENERATOROVERFLOW FID_RESULT_SYSTIMEISINPAST
      FID_RESULT_WRONGSLICESIZE FID_RESULT_BASE64DECODEERROR
      FID_RESULT_BUFFERWRONGSIZE
    dsimp only
    have q0 : ¬(c = 0) := by omega
    have q1 : ¬(c = -1) := by omega
    have q2 : ¬(c = -2) := by omega
    have q3 : ¬(c = -3) := by omega
    have q4 : ¬(c = -4) := by omega
    have q5 : ¬(c = -5) := by omega
    have q6 : ¬(c = -6) := by omega
    have q7 : ¬(c = -7) := by omega
    have q8 : ¬(c = -8) := by omega
    have q9 : ¬(0 < c) := by omega
    rw [if_neg q0, if_neg q1, if_neg q2, if_neg q3, if_neg q4, if_neg q5, if_neg q6,
      if_neg q7, if_neg q8, if_neg q9]

/-- Witness for C10 at a named code, an unnamed positive code and an unnamed
negative code. -/
theorem C10_error_what_witness :
    (Error.mk (-3)).code = -3 ∧
    (Error.mk (-3)).what = "sequence overflow error" ∧
    (Error.mk 7).what = "no error but failed" ∧
    (Error.mk (-100)).what = "unknown error" :=
  ⟨(C10_error_what (-3) (by norm_num) (by norm_num)).1,
   (C10_error_what (-3) (by norm_num) (by norm_num)).2.2.2.2.1 rfl,
   (C10_error_what 7 (by norm_num) (by norm_num)).2.2.2.2.2.2.2.2.2.2.1 (by norm_num),
   (C10_error_what (-100) (by norm_num) (by norm_num)).2.2.2.2.2.2.2.2.2.2.2 (by norm_num)⟩

/-- The packing step never reports a clock regression: its errors are the three
field overflows only. -/
theorem emit_ne_past (st : GenState) : st.emit ≠ .error FID_RESULT_SYSTIMEISINPAST := by
  unfold GenState.emit flowerid_new
  split_ifs <;> simp [FID_RESULT_TIMESTAMPOVERFLOW, FID_RESULT_SEQUENCEOVERFLOW,
    FID_RESULT_GENERATOROVERFLOW, FID_RESULT_SYSTIMEISINPAST]

/-- The wait-on-overflow loop never reports a clock regression. -/
theorem waitLoop_ne_past (st : GenState) :
    ∀ samples : List Nat, st.waitLoop samples ≠ some (.error FID_RESULT_SYSTIMEISINPAST)
  | [] => by simp [GenState.waitLoop]
  | now :: rest => by
    unfold GenState.waitLoop
    split_ifs with h
    · intro hc
      exact emit_ne_past _ (Option.some.inj hc)
    · exact waitLoop_ne_past st rest

/-- Unfolding of one next() call on a nonempty sample list. -/
theorem next_cons (st : GenState) (now : Nat) (rest : List Nat) :
    st.next (now :: rest) =
      if st.last_timestamp < now then
        some (GenState.emit { st with last_timestamp := now, sequence := 0 })
      else if now = st.last_timestamp then
        if st.sequence + 1 ≤ 2047 then
          some (GenState.emit { st with sequence := st.sequence + 1 })
        else if st.wait_sequence then st.waitLoop rest
        else some (.error FID_RESULT_SEQUENCEOVERFLOW)
      else some (.error FID_RESULT_SYSTIMEISINPAST) := rfl

/-- Packing an in-range state succeeds with the packed value. -/
theorem emit_ok (st : GenState) (hc : st.last_timestamp < 2 ^ 43)
    (hs : st.sequence < 2 ^ 11) (hg : st.generator < 2 ^ 10) :
    st.emit = .ok (st, st.last_timestamp <<< 21 ||| st.sequence <<< 10 ||| st.generator) := by
  unfold GenState.emit flowerid_new
  rw [if_neg (Nat.not_le.mpr hc), if_neg (Nat.not_le.mpr hs), if_neg (Nat.not_le.mpr hg)]

/-- A call on a fresh tick resets the sequence to 0 and stores the new tick. -/
theorem next_fresh (st : GenState) (c : Nat) (rest : List Nat) (h : st.last_timestamp < c)
    (hc : c < 2 ^ 43) (hg : st.generator < 2 ^ 10) :
    st.next (c :: rest) = some (.ok ({ st with last_timestamp := c, sequence := 0 },
      c <<< 21 ||| 0 <<< 10 ||| st.generator)) := by
  rw [next_cons, if_pos h, emit_ok { st with last_timestamp := c, sequence := 0 } hc
    (show (0:Nat) < 2 ^ 11 by norm_num) hg]

/-- A call within the current tick increments the sequence while it stays
below 2048. -/
theorem next_same_tick (st : GenState) (rest : List Nat) (hseq : st.sequence + 1 ≤ 2047)
    (hc : st.last_timestamp < 2 ^ 43) (hg : st.generator < 2 ^ 10) :
    st.next (st.last_timestamp :: rest) =
      some (.ok ({ st with sequence := st.sequence + 1 },
        st.last_timestamp <<< 21 ||| (st.sequence + 1) <<< 10 ||| st.generator)) := by
  rw [next_cons, if_neg (lt_irrefl st.last_timestamp), if_pos rfl, if_pos hseq,
    emit_ok { st with sequence := st.sequence + 1 } hc
    (show st.sequence + 1 < 2 ^ 11 by omega) hg]

/-- A sample below last_timestamp is answered with SysTimeIsInPast. -/
theorem next_past (st : GenState) (now : Nat) (rest : List Nat) (h : now < st.last_timestamp) :
    st.next (now :: rest) = some (.error FID_RESULT_SYSTIMEISINPAST) := by
  rw [next_cons, if_neg (show ¬(st.last_timestamp < now) by omega),
    if_neg (show ¬(now = st.last_timestamp) by omega)]

/-- A sample at or past last_timestamp is never answered with SysTimeIsInPast. -/
theorem next_ne_past (st : GenState) (now : Nat) (rest : List Nat) (h : st.last_timestamp ≤ now) :
    st.next (now :: rest) ≠ some (.error FID_RESULT_SYSTIMEISINPAST) := by
  rw [next_cons]
  by_cases h1 : st.last_timestamp < now
  · rw [if_pos h1]
    intro hc
    exact emit_ne_past _ (Option.some.inj hc)
  · rw [if_neg h1, if_pos (show now = st.last_timestamp by omega)]
    by_cases h2 : st.sequence + 1 ≤ 2047
    · rw [if_pos h2]
      intro hc
      exact emit_ne_past _ (Option.some.inj hc)
    · rw [if_neg h2]
      by_cases h3 : st.wait_sequence = true
      · rw [if_pos h3]
        exact waitLoop_ne_past st rest
      · rw [if_neg h3]
        intro hc
        simp [FID_RESULT_SEQUENCEOVERFLOW, FID_RESULT_SYSTIMEISINPAST] at hc

/-- A sequence-exhausted call within the current tick with waiting disabled
fails with SequenceOverflow. -/
theorem next_overflow (st : GenState) (rest : List Nat) (hseq : ¬(st.sequence + 1 ≤ 2047))
    (hw : st.wait_sequence = false) :
    st.next (st.last_timestamp :: rest) = some (.error FID_RESULT_SEQUENCEOVERFLOW) := by
  rw [next_cons, if_neg (lt_irrefl st.last_timestamp), if_pos rfl, if_neg hseq,
    if_neg (show ¬(st.wait_sequence = true) by simp [hw])]

/-- Claim C5: a sampled clock strictly below last_timestamp yields
SysTimeIsInPast with the state unchanged; the condition is per-call: a
subsequent call sampling at or past last_timestamp is never answered with
SysTimeIsInPast, and a strictly advanced in-range sample succeeds with the
normal new-tick transition. -/
theorem C5_clock_regression :
    ∀ (st : GenState) (now : Nat) (rest : List Nat),
      (now < st.last_timestamp →
        st.next (now :: rest) = some (.error FID_RESULT_SYSTIMEISINPAST) ∧
        st.step (now :: rest) = st) ∧
      (st.last_timestamp ≤ now →
        st.next (now :: rest) ≠ some (.error FID_RESULT_SYSTIMEISINPAST)) ∧
      (st.last_timestamp < now → now < 2 ^ 43 → st.generator < 2 ^ 10 →
        st.next (now :: rest) = some (.ok ({ st with last_timestamp := now, sequence := 0 },
          now <<< 21 ||| 0 <<< 10 ||| st.generator))) := by
  intro st now rest
  refine ⟨fun h => ⟨next_past st now rest h, ?_⟩, fun h => next_ne_past st now rest h,
    fun h hc hg => next_fresh st now rest h hc hg⟩
  unfold GenState.step
  rw [next_past st now rest h]

/-- Witness for C5 on a generator whose stored last_timestamp is 10, sampled at
5, 10 and 11. -/
theorem C5_clock_regression_witness :
    ((⟨160, 0, 10, 0, true, false⟩ : GenState).next [5] =
      some (.error FID_RESULT_SYSTIMEISINPAST) ∧
      (⟨160, 0, 10, 0, true, false⟩ : GenState).step [5] = ⟨160, 0, 10, 0, true, false⟩) ∧
    (⟨160, 0, 10, 0, true, false⟩ : GenState).next [10] ≠
      some (.error FID_RESULT_SYSTIMEISINPAST) ∧
    (⟨160, 0, 10, 0, true, false⟩ : GenState).next [11] =
      some (.ok (⟨160, 0, 11, 0, true, false⟩, 11 <<< 21 ||| 0 <<< 10 ||| 160)) :=
  ⟨(C5_clock_regression ⟨160, 0, 10, 0, true, false⟩ 5 []).1 (by norm_num),
   (C5_clock_regression ⟨160, 0, 10, 0, true, false⟩ 10 []).2.1 (by norm_num),
   (C5_clock_regression ⟨160, 0, 10, 0, true, false⟩ 11 []).2.2 (by norm_num)
     (by norm_num) (by norm_num)⟩

/-- After k+1 constant-clock calls on a fresh tick the state holds that tick
and sequence k, for k up to 2047. -/
theorem runConst_succ_state (st : GenState) (c : Nat) (hg : st.generator < 2 ^ 10)
    (hc : c < 2 ^ 43) (hlt : st.last_timestamp < c) :
    ∀ k, k ≤ 2047 → st.runConst c (k + 1) = { st with last_timestamp := c, sequence := k }
  | 0, _ => by
    show (st.runConst c 0).step [c] = _
    unfold GenState.runConst GenState.step
    rw [next_fresh st c [] hlt hc hg]
  | k + 1, hk => by
    show (st.runConst c (k + 1)).step [c] = _
    rw [runConst_succ_state st c hg hc hlt k (by omega)]
    unfold GenState.step
    rw [next_same_tick { st with last_timestamp := c, sequence := k } []
      (show k + 1 ≤ 2047 from hk) hc hg]

/-- The k+1st constant-clock call emits the identifier with sequence k. -/
theorem runConst_next_ids (st : GenState) (c : Nat) (hg : st.generator < 2 ^ 10)
    (hc : c < 2 ^ 43) (hlt : st.last_timestamp < c) :
    ∀ k, k ≤ 2047 → (st.runConst c k).next [c] =
      some (.ok ({ st with last_timestamp := c, sequence := k },
        c <<< 21 ||| k <<< 10 ||| st.generator)) := by
  intro k hk
  match k, hk with
  | 0, _ => exact next_fresh st c [] hlt hc hg
  | k + 1, hk =>
    rw [runConst_succ_state st c hg hc hlt k (by omega)]
    exact next_same_tick { st with last_timestamp := c, sequence := k } []
      (show k + 1 ≤ 2047 from hk) hc hg

/-- Claim C4: with waiting disabled and a constant sampled clock c opening a
fresh tick, each of the first 2048 calls succeeds, carrying sequence values 0
through 2047 and strictly increasing identifiers, and the 2049th call within
the same tick fails with SequenceOverflow leaving the (last_timestamp,
sequence) state unchanged. -/
theorem C4_sequence_exhaustion :
    ∀ (st : GenState) (c : Nat), st.wait_sequence = false → st.generator < 2 ^ 10 →
      c < 2 ^ 43 → st.last_timestamp < c →
      (∀ k, k < 2048 → (st.runConst c k).next [c] =
        some (.ok ({ st with last_timestamp := c, sequence := k },
          c <<< 21 ||| k <<< 10 ||| st.generator))) ∧
      (∀ k, k < 2048 → FID.sequence ⟨c <<< 21 ||| k <<< 10 ||| st.generator⟩ = k) ∧
      (∀ j k, j < k → k < 2048 →
        (c <<< 21 ||| j <<< 10 ||| st.generator) < (c <<< 21 ||| k <<< 10 ||| st.generator)) ∧
      (st.runConst c 2048).next [c] = some (.error FID_RESULT_SEQUENCEOVERFLOW) ∧
      (st.runConst c 2048).step [c] = st.runConst c 2048 := by
  intro st c hw hg hc hlt
  refine ⟨fun k hk => runConst_next_ids st c hg hc hlt k (by omega), ?_, ?_, ?_, ?_⟩
  · intro k hk
    rw [pack_eq_add c k st.generator (by omega) hg]
    exact (fields_of_packed c k st.generator (by omega) hg).2.1
  · intro j k hjk hk
    rw [pack_eq_add c j st.generator (by omega) hg, pack_eq_add c k st.generator (by omega) hg]
    norm_num
    omega
  · rw [runConst_succ_state st c hg hc hlt 2047 (Nat.le_refl _)]
    exact next_overflow { st with last_timestamp := c, sequence := 2047 } []
      (show ¬(2047 + 1 ≤ 2047) by omega) (show st.wait_sequence = false from hw)
  · rw [runConst_succ_state st c hg hc hlt 2047 (Nat.le_refl _)]
    unfold GenState.step
    rw [show ({ st with last_timestamp := c, sequence := 2047 } : GenState).next [c] =
      some (.error FID_RESULT_SEQUENCEOVERFLOW) from
      next_overflow { st with last_timestamp := c, sequence := 2047 } []
        (show ¬(2047 + 1 ≤ 2047) by omega) (show st.wait_sequence = false from hw)]

/-- Witness for C4 on a non-waiting generator with id 160 and constant clock 1. -/
theorem C4_sequence_exhaustion_witness :
    ((⟨160, 0, 0, 0, false, false⟩ : GenState).runConst 1 0).next [1] =
      some (.ok (⟨160, 0, 1, 0, false, false⟩, 1 <<< 21 ||| 0 <<< 10 ||| 160)) ∧
    FID.sequence ⟨1 <<< 21 ||| 5 <<< 10 ||| 160⟩ = 5 ∧
    (1 <<< 21 ||| 3 <<< 10 ||| 160) < (1 <<< 21 ||| 7 <<< 10 ||| 160) ∧
    ((⟨160, 0, 0, 0, false, false⟩ : GenState).runConst 1 2048).next [1] =
      some (.error FID_RESULT_SEQUENCEOVERFLOW) ∧
    ((⟨160, 0, 0, 0, false, false⟩ : GenState).runConst 1 2048).step [1] =
      (⟨160, 0, 0, 0, false, false⟩ : GenState).runConst 1 2048 := by
  have h := C4_sequence_exhaustion ⟨160, 0, 0, 0, false, false⟩ 1 rfl (by norm_num)
    (by norm_num) (by norm_num)
  exact ⟨h.1 0 (by norm_num), h.2.1 5 (by norm_num), h.2.2.1 3 7 (by norm_num) (by norm_num),
    h.2.2.2.1, h.2.2.2.2⟩

end Flowerid
